import Mathlib

/-!
Shallow embedding of `src/main.py` (a todo-list gamification engine:
rewards, pools, boxes, loot boxes, hierarchical todos and a task-creation
strategy).  Randomness is modelled by an explicit raw-draw stream
`r : Nat → Nat` together with a cursor index: the Python call
`random.randint(lo, hi)` consuming the `n`-th raw draw is modelled by
`randint lo hi (r n)`.  Unbounded loops and recursion are modelled with
explicit fuel; `RunResult.fuelOut` marks fuel exhaustion and
`RunResult.crash` marks a Python runtime exception (e.g. `AttributeError`).
-/

namespace TodoLoot

/-- Models `Reward.__init__` (main.py lines 36-43): a value threshold and a
description.  `activate` is a no-op in every concrete subclass and is not
modelled. -/
structure Reward where
  value : Int
  description : String
deriving DecidableEq, Repr

/-- Models `Key` (main.py lines 45-52): a `Reward` carrying a shared-secret
`key_name`. -/
structure Key where
  value : Int
  description : String
  key_name : String
deriving DecidableEq, Repr

/-- Models `random.randint(lo, hi)` applied to one raw draw `n` from the
random stream: a uniform integer in `[lo, hi]` obtained as
`lo + n % (hi - lo + 1)`. -/
def randint (lo hi : Int) (n : Nat) : Int :=
  lo + ((n % (hi - lo + 1).toNat : Nat) : Int)

/-- A Python object sitting in the `pool` attribute of a `Box`.  It is either
a genuine `RandomPool` (main.py lines 65-71) or a plain Python list — which is
what `LootBox.__init__` (line 94) actually stores, and which has no
`select_reward` method. -/
inductive PoolObj where
  | randomPool (rewards : List Reward)
  | plainList (rewards : List Reward)
deriving DecidableEq, Repr

/-- The reward collection held by the pool object. -/
def PoolObj.rewardList : PoolObj → List Reward
  | .randomPool rs => rs
  | .plainList rs => rs

/-- Models the dynamic call `self.pool.select_reward()` (main.py line 82).
`RandomPool.select_reward` (lines 66-71) draws `randint(0, len-1)` and
returns that element when the collection is non-empty, and returns `None`
without consuming a draw when it is empty.  Calling it on a plain list
raises `AttributeError`.  Returns the selected reward (if any) together
with the advanced draw cursor. -/
def PoolObj.select_reward : PoolObj → (Nat → Nat) → Nat → Except String (Option Reward × Nat)
  | .plainList _, _, _ => .error "AttributeError: list object has no attribute select_reward"
  | .randomPool rs, r, i =>
    if h : rs = [] then .ok (none, i)
    else .ok (some (rs.get ⟨r i % rs.length, Nat.mod_lt _ (List.length_pos.mpr h)⟩), i + 1)

/-- Outcome of running a fueled fragment of the Python program. -/
inductive RunResult (α : Type) where
  | ok (a : α)
  | crash (msg : String)
  | fuelOut
deriving DecidableEq, Repr

/-- Models `Box.__init__` (main.py lines 74-77). -/
structure Box where
  pool_size : Int
  pool : PoolObj
deriving DecidableEq, Repr

/-- Fueled loop body of `Box.get_reward_pool` (main.py lines 79-87):
`while len(reward_pool) < self.pool_size`, draw a candidate via
`self.pool.select_reward()`, and if one is returned, accept it iff
`randint(1, 1000) + modifier >= reward.value`. -/
def Box.get_reward_pool_aux (b : Box) (modifier : Int) (r : Nat → Nat) :
    Nat → Nat → List Reward → RunResult (List Reward × Nat)
  | 0, i, acc =>
    if (acc.length : Int) < b.pool_size then .fuelOut else .ok (acc, i)
  | fuel + 1, i, acc =>
    if (acc.length : Int) < b.pool_size then
      match b.pool.select_reward r i with
      | .error e => .crash e
      | .ok (none, i') => b.get_reward_pool_aux modifier r fuel i' acc
      | .ok (some reward, i') =>
        if randint 1 1000 (r i') + modifier ≥ reward.value then
          b.get_reward_pool_aux modifier r fuel (i' + 1) (acc ++ [reward])
        else
          b.get_reward_pool_aux modifier r fuel (i' + 1) acc
    else .ok (acc, i)

/-- Models `Box.get_reward_pool(modifier)` (main.py lines 79-87), starting
from an empty accumulated list, with draw cursor `i` and fuel `fuel`. -/
def Box.get_reward_pool (b : Box) (modifier : Int) (r : Nat → Nat) (i fuel : Nat) :
    RunResult (List Reward × Nat) :=
  b.get_reward_pool_aux modifier r fuel i []

/-- Models a `LootBox` object's attributes (main.py lines 92-96). -/
structure LootBox where
  name : String
  key_name : String
  pool_size : Int
  pool : PoolObj
deriving DecidableEq, Repr

/-- Models `LootBox.__init__(name, key_name, pool_size, rewards)` (main.py
lines 93-96): `super().__init__(pool_size, rewards)` stores the *plain list*
`rewards` in the `pool` attribute, where `Box.__init__` expects a `Pool`. -/
def LootBox.make (name key_name : String) (pool_size : Int) (rewards : List Reward) : LootBox :=
  { name := name, key_name := key_name, pool_size := pool_size, pool := .plainList rewards }

/-- The `Box` part of a `LootBox`. -/
def LootBox.toBox (lb : LootBox) : Box :=
  { pool_size := lb.pool_size, pool := lb.pool }

/-- Models `LootBox.open_box(key)` (main.py lines 98-102): exact string
comparison of `key.key_name` with the box's `key_name`; on match, delegate
to `get_reward_pool()` (default modifier 0); on mismatch, return `None`
(modelled as `none`, with the draw cursor untouched). -/
def LootBox.open_box (lb : LootBox) (key : Key) (r : Nat → Nat) (i fuel : Nat) :
    RunResult (Option (List Reward) × Nat) :=
  if key.key_name = lb.key_name then
    match lb.toBox.get_reward_pool 0 r i fuel with
    | .ok (rp, i') => .ok (some rp, i')
    | .crash e => .crash e
    | .fuelOut => .fuelOut
  else .ok (none, i)

/-- Models a `Todo` object (main.py lines 107-125): description, importance,
difficulty, quality, optional due timestamp, completed flag, required and
optional subtask lists, and the optional score-modifying function. -/
inductive Todo where
  | mk (description : String) (importance : Int) (difficulty : Int) (quality : Int)
       (due_datetime : Option Int) (completed : Bool)
       (required_subtasks : List Todo) (optional_subtasks : List Todo)
       (modify_score_function : Option (Int → Int))

/-- The `description` attribute of a `Todo`. -/
def Todo.description : Todo → String
  | .mk d _ _ _ _ _ _ _ _ => d

/-- The `importance` attribute of a `Todo`. -/
def Todo.importance : Todo → Int
  | .mk _ imp _ _ _ _ _ _ _ => imp

/-- The `difficulty` attribute of a `Todo`. -/
def Todo.difficulty : Todo → Int
  | .mk _ _ df _ _ _ _ _ _ => df

/-- The `quality` attribute of a `Todo`. -/
def Todo.quality : Todo → Int
  | .mk _ _ _ q _ _ _ _ _ => q

/-- The `due_datetime` attribute of a `Todo`. -/
def Todo.due_datetime : Todo → Option Int
  | .mk _ _ _ _ due _ _ _ _ => due

/-- The `completed` flag of a `Todo`. -/
def Todo.completed : Todo → Bool
  | .mk _ _ _ _ _ c _ _ _ => c

/-- The `required_subtasks` list of a `Todo`. -/
def Todo.required_subtasks : Todo → List Todo
  | .mk _ _ _ _ _ _ req _ _ => req

/-- The `optional_subtasks` list of a `Todo`. -/
def Todo.optional_subtasks : Todo → List Todo
  | .mk _ _ _ _ _ _ _ opt _ => opt

/-- Models `Todo.__init__` (main.py lines 108-125).  `difficulty` resolves to
the explicit argument if given, else to `difficulty_generator.generate_difficulty(description)`
if a generator is given, else to the literal `1`; `quality` resolves the same
way with default `0`.  `completed` starts `False` and both subtask lists start
empty. -/
def Todo.init (description : String) (importance : Int)
    (difficulty : Option Int) (quality : Option Int) (due_datetime : Option Int)
    (quality_generator : Option (String → Int))
    (difficulty_generator : Option (String → Int))
    (modify_score_function : Option (Int → Int)) : Todo :=
  .mk description importance
    (match difficulty with
     | some dv => dv
     | none =>
       match difficulty_generator with
       | some g => g description
       | none => 1)
    (match quality with
     | some qv => qv
     | none =>
       match quality_generator with
       | some g => g description
       | none => 0)
    due_datetime false [] [] modify_score_function

mutual

/-- Models `Todo.mark_complete` (main.py lines 133-138) together with its
helper `_complete_subtasks` (lines 140-144), with the in-place mutation made
explicit: the result is the post-call state of the object together with a
success flag (`false` = the `Exception("Not all required subtasks are
complete")` was raised somewhere and propagated).  If the guard
`all(subtask.completed for subtask in self.required_subtasks)` holds, the
object's flag is set to `True` *first* and then `mark_complete` is invoked on
every required subtask and then on every optional subtask; an exception
raised by a subtask aborts the iteration, leaving the already-processed
subtasks (and the parent's flag) mutated. -/
def Todo.mark_complete : Todo → Todo × Bool
  | .mk d imp df q due c req opt msf =>
    if req.all Todo.completed then
      let pr := mark_complete_list req
      if pr.2 then
        let po := mark_complete_list opt
        (.mk d imp df q due true pr.1 po.1 msf, po.2)
      else (.mk d imp df q due true pr.1 opt msf, false)
    else (.mk d imp df q due c req opt msf, false)

/-- One `for subtask in ...: subtask.mark_complete()` loop of
`_complete_subtasks` (main.py lines 140-144): stops at the first subtask whose
`mark_complete` raises, leaving the remaining subtasks untouched. -/
def mark_complete_list : List Todo → List Todo × Bool
  | [] => ([], true)
  | t :: ts =>
    let p := Todo.mark_complete t
    if p.2 then
      let ps := mark_complete_list ts
      (p.1 :: ps.1, ps.2)
    else (p.1 :: ts, false)

end

mutual

/-- Every node of the `Todo` tree (the node itself and all transitive
required/optional subtasks) has all of its direct required subtasks'
`completed` flags set.  This is exactly the condition under which the
recursive `mark_complete` runs to completion without raising. -/
def allPrereqsMet : Todo → Bool
  | .mk _ _ _ _ _ _ req opt _ =>
    req.all Todo.completed && allPrereqsMetList req && allPrereqsMetList opt

/-- List version of `allPrereqsMet`. -/
def allPrereqsMetList : List Todo → Bool
  | [] => true
  | t :: ts => allPrereqsMet t && allPrereqsMetList ts

end

mutual

/-- Every node of the `Todo` tree has `completed = true`. -/
def allMarked : Todo → Bool
  | .mk _ _ _ _ _ c req opt _ => c && allMarkedList req && allMarkedList opt

/-- List version of `allMarked`. -/
def allMarkedList : List Todo → Bool
  | [] => true
  | t :: ts => allMarked t && allMarkedList ts

end

/-- Models `add_todo(todos, todo)` (main.py lines 237-238): `todos.append(todo)`. -/
def add_todo (todos : List Todo) (todo : Todo) : List Todo :=
  todos ++ [todo]

/-- Models main.py lines 186-195: `rewards = reward_box.get_reward_pool(modifier)`;
if the draw is non-empty, `RandomPool(rewards).select_reward()` picks one
reward uniformly and it is activated and returned; if the draw is empty,
`None` is returned with no retry.  The todo list is threaded through
unchanged so that it survives a crash or fuel exhaustion. -/
def reward_attempt (box : Box) (modifier : Int) (r : Nat → Nat) (boxFuel : Nat)
    (todos : List Todo) (i : Nat) : List Todo × RunResult (Option Reward × Nat) :=
  match box.get_reward_pool modifier r i boxFuel with
  | .crash e => (todos, .crash e)
  | .fuelOut => (todos, .fuelOut)
  | .ok (rewards, i') =>
    if rewards.isEmpty then (todos, .ok (none, i'))
    else
      match (PoolObj.randomPool rewards).select_reward r i' with
      | .error e => (todos, .crash e)
      | .ok (some reward, i'') => (todos, .ok (some reward, i''))
      | .ok (none, _) => (todos, .crash "AttributeError: NoneType has no attribute description")

/-- Models main.py lines 199-208: `rewards = punishment_box.get_reward_pool(modifier)`;
`reward = RandomPool(rewards).select_reward()` is evaluated *before* the
emptiness test (on an empty draw it returns `None` without consuming a draw);
then the non-empty draw returns the activated selected reward, the empty draw
returns `None`. -/
def punishment_attempt (box : Box) (modifier : Int) (r : Nat → Nat) (boxFuel : Nat)
    (todos : List Todo) (i : Nat) : List Todo × RunResult (Option Reward × Nat) :=
  match box.get_reward_pool modifier r i boxFuel with
  | .crash e => (todos, .crash e)
  | .fuelOut => (todos, .fuelOut)
  | .ok (rewards, i') =>
    match (PoolObj.randomPool rewards).select_reward r i' with
    | .error e => (todos, .crash e)
    | .ok (rewardOpt, i'') =>
      if rewards.isEmpty then (todos, .ok (none, i''))
      else
        match rewardOpt with
        | some reward => (todos, .ok (some reward, i''))
        | none => (todos, .crash "AttributeError: NoneType has no attribute description")

/-- Models `SimpleTaskCreationStrategy.create_task` (main.py lines 171-212).
A new `Todo` is constructed from the description, importance and the two
generators and appended to the caller's `todos` list; then
`modifier = quality * (11 - importance)`.  If `modifier > 0` the reward box
is attempted with that modifier; otherwise a fresh `randint(1, 10)` roll is
compared with `importance`: `roll >= importance` attempts the punishment box
with the same modifier, `roll < importance` recurses with
`suggestion_generator.make_suggestion(description)` as the new description
and the same importance and generators.  The recursion depth is bounded by
the fuel argument; the (possibly grown) todo list is always returned. -/
def create_task (dg qg : String → Int) (sg : String → String)
    (reward_box punishment_box : Box) (r : Nat → Nat) (boxFuel : Nat) :
    Nat → List Todo → String → Int → Nat → List Todo × RunResult (Option Reward × Nat)
  | 0, todos, _, _, _ => (todos, .fuelOut)
  | depth + 1, todos, description, importance, i =>
    let new_todo := Todo.init description importance none none none (some qg) (some dg) none
    let todos' := add_todo todos new_todo
    let modifier := new_todo.quality * (11 - importance)
    if 0 < modifier then
      reward_attempt reward_box modifier r boxFuel todos' i
    else if randint 1 10 (r i) ≥ importance then
      punishment_attempt punishment_box modifier r boxFuel todos' (i + 1)
    else
      create_task dg qg sg reward_box punishment_box r boxFuel
        depth todos' (sg description) importance (i + 1)

theorem select_reward_nil (r : Nat → Nat) (i : Nat) :
    (PoolObj.randomPool []).select_reward r i = .ok (none, i) := by
  simp [PoolObj.select_reward]

theorem select_reward_ne_nil (rs : List Reward) (h : rs ≠ []) (r : Nat → Nat) (i : Nat) :
    (PoolObj.randomPool rs).select_reward r i
      = .ok (some (rs.get ⟨r i % rs.length, Nat.mod_lt _ (List.length_pos.mpr h)⟩), i + 1) := by
  simp [PoolObj.select_reward, h]

theorem select_reward_mem (rs : List Reward) (r : Nat → Nat) (i : Nat) (x : Reward) (i' : Nat)
    (h : (PoolObj.randomPool rs).select_reward r i = .ok (some x, i')) : x ∈ rs := by
  by_cases hrs : rs = []
  · subst hrs
    rw [select_reward_nil] at h
    simp at h
  · rw [select_reward_ne_nil rs hrs] at h
    simp only [Except.ok.injEq, Prod.mk.injEq, Option.some.injEq] at h
    rw [← h.1]
    exact List.get_mem _ _ _

theorem aux_stop (b : Box) (modifier : Int) (r : Nat → Nat) (fuel i : Nat) (acc : List Reward)
    (h : ¬ (acc.length : Int) < b.pool_size) :
    b.get_reward_pool_aux modifier r fuel i acc = .ok (acc, i) := by
  cases fuel <;> simp [Box.get_reward_pool_aux, h]

theorem aux_zero (b : Box) (modifier : Int) (r : Nat → Nat) (i : Nat) (acc : List Reward)
    (h : (acc.length : Int) < b.pool_size) :
    b.get_reward_pool_aux modifier r 0 i acc = .fuelOut := by
  simp [Box.get_reward_pool_aux, h]

theorem aux_plain (b : Box) (modifier : Int) (r : Nat → Nat) (rs : List Reward)
    (hpool : b.pool = .plainList rs) (fuel i : Nat) (acc : List Reward)
    (h : (acc.length : Int) < b.pool_size) :
    b.get_reward_pool_aux modifier r (fuel + 1) i acc
      = .crash "AttributeError: list object has no attribute select_reward" := by
  simp [Box.get_reward_pool_aux, h, hpool, PoolObj.select_reward]

theorem aux_step_nil (b : Box) (modifier : Int) (r : Nat → Nat)
    (hpool : b.pool = .randomPool []) (fuel i : Nat) (acc : List Reward)
    (h : (acc.length : Int) < b.pool_size) :
    b.get_reward_pool_aux modifier r (fuel + 1) i acc
      = b.get_reward_pool_aux modifier r fuel i acc := by
  simp [Box.get_reward_pool_aux, h, hpool, select_reward_nil]

theorem aux_step (b : Box) (modifier : Int) (r : Nat → Nat) (rs : List Reward)
    (hpool : b.pool = .randomPool rs) (hrs : rs ≠ []) (fuel i : Nat) (acc : List Reward)
    (h : (acc.length : Int) < b.pool_size) :
    b.get_reward_pool_aux modifier r (fuel + 1) i acc =
      if randint 1 1000 (r (i + 1)) + modifier
          ≥ (rs.get ⟨r i % rs.length, Nat.mod_lt _ (List.length_pos.mpr hrs)⟩).value then
        b.get_reward_pool_aux modifier r fuel (i + 2)
          (acc ++ [rs.get ⟨r i % rs.length, Nat.mod_lt _ (List.length_pos.mpr hrs)⟩])
      else
        b.get_reward_pool_aux modifier r fuel (i + 2) acc := by
  simp [Box.get_reward_pool_aux, h, hpool, select_reward_ne_nil rs hrs]

theorem get_reward_pool_aux_ok (b : Box) (modifier : Int) (r : Nat → Nat) (rs : List Reward)
    (hpool : b.pool = .randomPool rs) :
    ∀ fuel i acc out i',
      (acc.length : Int) ≤ b.pool_size →
      (∀ x ∈ acc, x ∈ rs ∧ ∃ j, randint 1 1000 (r j) + modifier ≥ x.value) →
      b.get_reward_pool_aux modifier r fuel i acc = .ok (out, i') →
      (out.length : Int) = b.pool_size ∧
      ∀ x ∈ out, x ∈ rs ∧ ∃ j, randint 1 1000 (r j) + modifier ≥ x.value := by
  intro fuel
  induction fuel with
  | zero =>
    intro i acc out i' hlen hinv hok
    by_cases hlt : (acc.length : Int) < b.pool_size
    · rw [aux_zero b modifier r i acc hlt] at hok
      exact absurd hok (by simp)
    · rw [aux_stop b modifier r 0 i acc hlt] at hok
      simp only [RunResult.ok.injEq, Prod.mk.injEq] at hok
      rw [← hok.1]
      exact ⟨le_antisymm hlen (not_lt.mp hlt), hinv⟩
  | succ fuel ih =>
    intro i acc out i' hlen hinv hok
    by_cases hlt : (acc.length : Int) < b.pool_size
    · by_cases hrs : rs = []
      · subst hrs
        rw [aux_step_nil b modifier r hpool fuel i acc hlt] at hok
        exact ih i acc out i' hlen hinv hok
      · rw [aux_step b modifier r rs hpool hrs fuel i acc hlt] at hok
        by_cases hch : randint 1 1000 (r (i + 1)) + modifier
            ≥ (rs.get ⟨r i % rs.length, Nat.mod_lt _ (List.length_pos.mpr hrs)⟩).value
        · rw [if_pos hch] at hok
          refine ih _ _ _ _ ?_ ?_ hok
          · simp only [List.length_append, List.length_cons, List.length_nil]
            push_cast
            omega
          · intro x hx
            rcases List.mem_append.mp hx with hx | hx
            · exact hinv x hx
            · rw [List.mem_singleton.mp hx]
              exact ⟨List.get_mem _ _ _, ⟨i + 1, hch⟩⟩
        · rw [if_neg hch] at hok
          exact ih _ _ _ _ hlen hinv hok
    · rw [aux_stop _ _ _ _ _ _ hlt] at hok
      simp only [RunResult.ok.injEq, Prod.mk.injEq] at hok
      rw [← hok.1]
      exact ⟨le_antisymm hlen (not_lt.mp hlt), hinv⟩

theorem randint_1_1000_le (n : Nat) : randint 1 1000 n ≤ 1000 := by
  unfold randint
  norm_num
  omega

theorem get_reward_pool_aux_stuck (b : Box) (modifier : Int) (r : Nat → Nat) (rs : List Reward)
    (hpool : b.pool = .randomPool rs)
    (hval : ∀ x ∈ rs, 1000 + modifier < x.value) :
    ∀ fuel i acc, (acc.length : Int) < b.pool_size →
      b.get_reward_pool_aux modifier r fuel i acc = .fuelOut := by
  intro fuel
  induction fuel with
  | zero =>
    intro i acc h
    exact aux_zero b modifier r i acc h
  | succ fuel ih =>
    intro i acc h
    by_cases hrs : rs = []
    · subst hrs
      rw [aux_step_nil b modifier r hpool fuel i acc h]
      exact ih i acc h
    · rw [aux_step b modifier r rs hpool hrs fuel i acc h]
      rw [if_neg ?_]
      · exact ih _ _ h
      · have hmem : rs.get ⟨r i % rs.length, Nat.mod_lt _ (List.length_pos.mpr hrs)⟩ ∈ rs :=
          List.get_mem _ _ _
        have hv := hval _ hmem
        have hb := randint_1_1000_le (r (i + 1))
        omega

mutual

theorem mark_complete_snd (t : Todo) : (Todo.mark_complete t).2 = allPrereqsMet t := by
  cases t with
  | mk d imp df q due c req opt msf =>
    simp only [Todo.mark_complete, allPrereqsMet]
    cases hg : req.all Todo.completed with
    | false => simp
    | true =>
      have h1 := mark_complete_list_snd req
      have h2 := mark_complete_list_snd opt
      cases hp : (mark_complete_list req).2 with
      | false =>
        rw [hp] at h1
        simp [h1.symm]
      | true =>
        rw [hp] at h1
        simp [h1.symm, h2]

theorem mark_complete_list_snd (ts : List Todo) :
    (mark_complete_list ts).2 = allPrereqsMetList ts := by
  cases ts with
  | nil => simp [mark_complete_list, allPrereqsMetList]
  | cons t ts =>
    simp only [mark_complete_list, allPrereqsMetList]
    have h1 := mark_complete_snd t
    have h2 := mark_complete_list_snd ts
    cases hp : (Todo.mark_complete t).2 with
    | false =>
      rw [hp] at h1
      simp [h1.symm]
    | true =>
      rw [hp] at h1
      simp [h1.symm, h2]

end

mutual

theorem mark_complete_marks (t : Todo) (h : allPrereqsMet t = true) :
    allMarked (Todo.mark_complete t).1 = true := by
  cases t with
  | mk d imp df q due c req opt msf =>
    simp only [allPrereqsMet, Bool.and_eq_true] at h
    obtain ⟨⟨hg, h1⟩, h2⟩ := h
    have hsnd : (mark_complete_list req).2 = true := by
      rw [mark_complete_list_snd req, h1]
    simp only [Todo.mark_complete, hg, hsnd, if_true, allMarked, Bool.true_and]
    rw [mark_complete_list_marks req h1, mark_complete_list_marks opt h2]
    simp

theorem mark_complete_list_marks (ts : List Todo) (h : allPrereqsMetList ts = true) :
    allMarkedList (mark_complete_list ts).1 = true := by
  cases ts with
  | nil => simp [mark_complete_list, allMarkedList]
  | cons t ts =>
    simp only [allPrereqsMetList, Bool.and_eq_true] at h
    obtain ⟨h1, h2⟩ := h
    have hsnd : (Todo.mark_complete t).2 = true := by
      rw [mark_complete_snd t, h1]
    simp only [mark_complete_list, hsnd, if_true, allMarkedList]
    rw [mark_complete_marks t h1, mark_complete_list_marks ts h2]
    simp

end

theorem todo_init_quality (d : String) (imp : Int) (qg dg : String → Int) :
    (Todo.init d imp none none none (some qg) (some dg) none).quality = qg d := rfl

theorem reward_attempt_fst (box : Box) (modifier : Int) (r : Nat → Nat) (boxFuel : Nat)
    (todos : List Todo) (i : Nat) :
    (reward_attempt box modifier r boxFuel todos i).1 = todos := by
  unfold reward_attempt
  split
  · rfl
  · rfl
  · split
    · rfl
    · split <;> rfl

theorem punishment_attempt_fst (box : Box) (modifier : Int) (r : Nat → Nat) (boxFuel : Nat)
    (todos : List Todo) (i : Nat) :
    (punishment_attempt box modifier r boxFuel todos i).1 = todos := by
  unfold punishment_attempt
  split
  · rfl
  · rfl
  · split
    · rfl
    · split
      · rfl
      · split <;> rfl

theorem create_task_extends (dg qg : String → Int) (sg : String → String)
    (rb pb : Box) (r : Nat → Nat) (boxFuel : Nat) :
    ∀ depth todos description importance i, ∃ ext,
      (create_task dg qg sg rb pb r boxFuel depth todos description importance i).1
        = todos ++ ext := by
  intro depth
  induction depth with
  | zero =>
    intro todos d imp i
    exact ⟨[], by simp [create_task]⟩
  | succ depth ih =>
    intro todos d imp i
    simp only [create_task]
    by_cases hm : 0 < (Todo.init d imp none none none (some qg) (some dg) none).quality * (11 - imp)
    · refine ⟨[Todo.init d imp none none none (some qg) (some dg) none], ?_⟩
      simp only [hm, if_true, reward_attempt_fst, add_todo]
    · rw [if_neg hm]
      by_cases hr : randint 1 10 (r i) ≥ imp
      · refine ⟨[Todo.init d imp none none none (some qg) (some dg) none], ?_⟩
        simp only [hr, if_true, punishment_attempt_fst, add_todo]
      · rw [if_neg hr]
        obtain ⟨ext, hext⟩ :=
          ih (add_todo todos (Todo.init d imp none none none (some qg) (some dg) none))
            (sg d) imp (i + 1)
        refine ⟨Todo.init d imp none none none (some qg) (some dg) none :: ext, ?_⟩
        rw [hext]
        simp [add_todo]

/-- Models `TestQualityGenerator.generate_quality` (main.py lines 11-14): always 42. -/
def qgT : String → Int := fun _ => 42

/-- Models `TestDifficultyGenerator.generate_difficulty` (main.py lines 21-24): always 50. -/
def dgT : String → Int := fun _ => 50

/-- Models `SimpleSuggestionGenerator.make_suggestion` (main.py lines 31-33). -/
def sgU : String → String := fun s => s ++ " (updated)"

/-- A quality generator that always returns 0 (the spec §8 `quality=0` scenario). -/
def qg0 : String → Int := fun _ => 0

/-- A deterministic raw-draw stream that always yields 9, so every
`randint(1, 10)` rolls 10. -/
def r9 : Nat → Nat := fun _ => 9

/-- The all-zero raw-draw stream. -/
def r0 : Nat → Nat := fun _ => 0

/-- A concrete well-formed box holding a single cheap reward. -/
def rewBox : Box := { pool_size := 1, pool := .randomPool [⟨100, "Reward Key 1"⟩] }

/-- A concrete box whose only reward is unreachable at modifier 0. -/
def stuckBox : Box := { pool_size := 1, pool := .randomPool [⟨2000, "gem"⟩] }

/-- A concrete box whose only reward is always accepted. -/
def wBox : Box := { pool_size := 1, pool := .randomPool [⟨1, "coin"⟩] }

/-- C9: the `Todo` constructor resolves `difficulty` and `quality` by the
precedence rule, evaluated once at construction: an explicitly passed value
wins over the corresponding generator's output (for every generator), which
wins over the hardcoded default (1 for difficulty, 0 for quality); the
generator's output is used only when no explicit value is given. -/
theorem todo_init_precedence (description : String) (importance : Int)
    (dv qv : Int) (due : Option Int) (qg dg : String → Int) (msf : Option (Int → Int)) :
    ((Todo.init description importance (some dv) (some qv) due (some qg) (some dg) msf).difficulty
        = dv ∧
     (Todo.init description importance (some dv) (some qv) due (some qg) (some dg) msf).quality
        = qv) ∧
    ((Todo.init description importance none none due (some qg) (some dg) msf).difficulty
        = dg description ∧
     (Todo.init description importance none none due (some qg) (some dg) msf).quality
        = qg description) ∧
    ((Todo.init description importance none none due none none msf).difficulty = 1 ∧
     (Todo.init description importance none none due none none msf).quality = 0) :=
  ⟨⟨rfl, rfl⟩, ⟨rfl, rfl⟩, ⟨rfl, rfl⟩⟩

/-- C4: `LootBox.open_box` compares `key.key_name` with the box's `key_name`
by exact string equality; on mismatch it returns the `None` sentinel with the
draw cursor untouched (zero draws consumed), and on match it returns exactly
the result of `get_reward_pool()` with modifier 0; the `None` sentinel is
distinct from an empty successful draw. -/
theorem open_box_spec (lb : LootBox) (key : Key) (r : Nat → Nat) (i fuel : Nat) :
    lb.open_box key r i fuel =
      (if key.key_name = lb.key_name then
        match lb.toBox.get_reward_pool 0 r i fuel with
        | .ok (rp, i') => .ok (some rp, i')
        | .crash e => .crash e
        | .fuelOut => .fuelOut
      else .ok (none, i)) ∧
    (none : Option (List Reward)) ≠ some [] :=
  ⟨rfl, by simp⟩

/-- C10: `LootBox.__init__` installs the plain reward list (not a `Pool`) as
the box's `pool` attribute, so with a matching key and a positive pool size
`open_box` can never succeed: the first acceptance-loop iteration calls
`select_reward` on a plain list and raises `AttributeError` (and with zero
fuel the loop is still unfinished), so no `ok` result is ever produced. -/
theorem lootbox_make_never_opens (name kn : String) (ps : Int) (rs : List Reward)
    (key : Key) (r : Nat → Nat) (i fuel : Nat)
    (hps : 0 < ps) (hkey : key.key_name = kn) :
    (LootBox.make name kn ps rs).pool = .plainList rs ∧
    ∀ res, (LootBox.make name kn ps rs).open_box key r i fuel ≠ .ok res := by
  refine ⟨rfl, ?_⟩
  intro res
  unfold LootBox.open_box
  have hkey' : key.key_name = (LootBox.make name kn ps rs).key_name := hkey
  rw [if_pos hkey']
  cases fuel with
  | zero =>
    have h0 : (LootBox.make name kn ps rs).toBox.get_reward_pool 0 r i 0 = .fuelOut := by
      unfold Box.get_reward_pool
      apply aux_zero
      simpa [LootBox.make, LootBox.toBox] using hps
    rw [h0]
    simp
  | succ fuel =>
    have h1 : (LootBox.make name kn ps rs).toBox.get_reward_pool 0 r i (fuel + 1)
        = .crash "AttributeError: list object has no attribute select_reward" := by
      unfold Box.get_reward_pool
      apply aux_plain _ _ _ rs rfl
      simpa [LootBox.make, LootBox.toBox] using hps
    rw [h1]
    simp

theorem lootbox_make_never_opens_witness :
    ((0 : Int) < 1 ∧ (⟨7, "master key", "kname"⟩ : Key).key_name = "kname") ∧
    ((LootBox.make "box" "kname" 1 []).pool = .plainList [] ∧
     ∀ res, (LootBox.make "box" "kname" 1 []).open_box ⟨7, "master key", "kname"⟩ r0 0 5
        ≠ .ok res) :=
  ⟨⟨by decide, rfl⟩,
   lootbox_make_never_opens "box" "kname" 1 [] ⟨7, "master key", "kname"⟩ r0 0 5
     (by decide) rfl⟩

/-- C8: for a box with positive pool size over a (non-empty) random pool all
of whose rewards have `value > 1000 + modifier`, no acceptance roll
`randint(1,1000) + modifier` can ever reach a reward's value, so the loop of
`get_reward_pool` never terminates — for every fuel bound the run is still
unfinished. -/
theorem get_reward_pool_nonterminating (b : Box) (modifier : Int) (rs : List Reward)
    (r : Nat → Nat)
    (hpool : b.pool = .randomPool rs) (hne : rs ≠ []) (hps : 0 < b.pool_size)
    (hval : ∀ x ∈ rs, 1000 + modifier < x.value) :
    ∀ fuel i, b.get_reward_pool modifier r i fuel = .fuelOut := by
  intro fuel i
  unfold Box.get_reward_pool
  exact get_reward_pool_aux_stuck b modifier r rs hpool hval fuel i [] (by simpa using hps)

theorem get_reward_pool_nonterminating_witness :
    (stuckBox.pool = PoolObj.randomPool [⟨2000, "gem"⟩] ∧
     [(⟨2000, "gem"⟩ : Reward)] ≠ [] ∧ (0 : Int) < stuckBox.pool_size ∧
     ∀ x ∈ [(⟨2000, "gem"⟩ : Reward)], (1000 : Int) + 0 < x.value) ∧
    stuckBox.get_reward_pool 0 r0 7 3 = .fuelOut :=
  ⟨⟨rfl, by simp, by decide, by decide⟩,
   get_reward_pool_nonterminating stuckBox 0 [⟨2000, "gem"⟩] r0 rfl (by simp) (by decide)
     (by decide) 3 7⟩

/-- C3: whenever `get_reward_pool(modifier)` over a (non-empty) random pool
terminates with a result, that result holds exactly `pool_size` rewards, each
of them a member of the pool's reward collection and each accepted by a roll
satisfying `randint(1,1000) + modifier >= reward.value`. -/
theorem get_reward_pool_exact (b : Box) (modifier : Int) (rs : List Reward) (r : Nat → Nat)
    (fuel i : Nat) (out : List Reward) (i' : Nat)
    (hpool : b.pool = .randomPool rs) (hps : 0 ≤ b.pool_size) (hne : rs ≠ [])
    (hok : b.get_reward_pool modifier r i fuel = .ok (out, i')) :
    (out.length : Int) = b.pool_size ∧
    ∀ x ∈ out, x ∈ rs ∧ ∃ j, randint 1 1000 (r j) + modifier ≥ x.value := by
  unfold Box.get_reward_pool at hok
  exact get_reward_pool_aux_ok b modifier r rs hpool fuel i [] out i'
    (by simpa using hps) (by simp) hok

theorem get_reward_pool_exact_witness :
    ((0 : Int) ≤ wBox.pool_size ∧ ([(⟨1, "coin"⟩ : Reward)] : List Reward) ≠ [] ∧
     wBox.get_reward_pool 0 r0 0 1 = .ok ([⟨1, "coin"⟩], 2)) ∧
    ((([⟨1, "coin"⟩] : List Reward).length : Int) = wBox.pool_size ∧
     ∀ x ∈ ([⟨1, "coin"⟩] : List Reward), x ∈ [(⟨1, "coin"⟩ : Reward)] ∧
       ∃ j, randint 1 1000 (r0 j) + 0 ≥ x.value) :=
  ⟨⟨by decide, by simp, by decide⟩,
   get_reward_pool_exact wBox 0 [⟨1, "coin"⟩] r0 1 0 [⟨1, "coin"⟩] 2 rfl (by decide)
     (by simp) (by decide)⟩

/-- A leaf subtask with `completed = false`. -/
def subIncomplete : Todo := .mk "sub" 1 1 0 none false [] [] none

/-- An optional subtask whose own required subtask is incomplete. -/
def optBlocked : Todo := .mk "opt" 1 1 0 none false [subIncomplete] [] none

/-- A parent with no required subtasks and one blocked optional subtask. -/
def parentBlocked : Todo := .mk "parent" 1 1 0 none false [] [optBlocked] none

/-- A parent whose only (required) subtask is incomplete. -/
def reqBlockedParent : Todo := .mk "parent2" 1 1 0 none false [subIncomplete] [] none

/-- A completed leaf subtask. -/
def okChild : Todo := .mk "done" 1 1 0 none true [] [] none

/-- An incomplete optional leaf with no subtasks of its own. -/
def okOpt : Todo := .mk "opt2" 1 1 0 none false [] [] none

/-- A parent whose required subtask is complete and whose optional subtask has
no prerequisites: `mark_complete` succeeds on it. -/
def okParent : Todo := .mk "parent3" 1 1 0 none false [okChild] [okOpt] none

/-- C1 counterexample: `parentBlocked` has every (i.e. no) required subtask
complete, yet `mark_complete` raises — and the failing call mutates state,
leaving the parent's `completed` flag `true`.  This refutes both the "iff at
least one required subtask is incomplete" direction and the "no state is
mutated on every failing call" part of the claim. -/
theorem mark_complete_c1_counterexample :
    parentBlocked.required_subtasks.all Todo.completed = true ∧
    (Todo.mark_complete parentBlocked).2 = false ∧
    parentBlocked.completed = false ∧
    (Todo.mark_complete parentBlocked).1.completed = true := by
  decide

/-- C1 (amended): if at least one direct required subtask has
`completed = false`, `mark_complete` fails with the incomplete-prerequisite
error and performs no mutation at all (the object, subtasks included, is
returned unchanged).  The converse does not hold: the call can also fail when
all direct required subtasks are complete (via a transitive or optional
subtask's unmet prerequisite), and such a failing call does mutate state. -/
theorem mark_complete_incomplete_required (t : Todo)
    (h : t.required_subtasks.all Todo.completed = false) :
    Todo.mark_complete t = (t, false) := by
  cases t with
  | mk d imp df q due c req opt msf =>
    simp only [Todo.required_subtasks] at h
    simp [Todo.mark_complete, h]

theorem mark_complete_incomplete_required_witness :
    reqBlockedParent.required_subtasks.all Todo.completed = false ∧
    Todo.mark_complete reqBlockedParent = (reqBlockedParent, false) :=
  ⟨by decide, mark_complete_incomplete_required reqBlockedParent (by decide)⟩

/-- C2 counterexample: all required subtasks of `parentBlocked` are complete
(there are none), yet `mark_complete` does not succeed, because the optional
subtask is completed through the guarded `mark_complete`, which raises on its
own incomplete required subtask — optional subtasks are *not* auto-completed
regardless of their own prerequisites. -/
theorem mark_complete_c2_counterexample :
    parentBlocked.required_subtasks.all Todo.completed = true ∧
    (Todo.mark_complete parentBlocked).2 = false := by
  decide

/-- C2 (amended): `mark_complete` succeeds iff every node of the Todo tree
(the Todo itself and all transitive required and optional subtasks) already
has all of its direct required subtasks' `completed` flags true; in that case
the Todo and all its required and optional subtasks transitively end with
`completed = true`. -/
theorem mark_complete_success_spec (t : Todo) :
    ((Todo.mark_complete t).2 = true ↔ allPrereqsMet t = true) ∧
    (allPrereqsMet t = true → allMarked (Todo.mark_complete t).1 = true) :=
  ⟨by rw [mark_complete_snd], mark_complete_marks t⟩

theorem mark_complete_success_spec_witness :
    allPrereqsMet okParent = true ∧
    (Todo.mark_complete okParent).2 = true ∧
    allMarked (Todo.mark_complete okParent).1 = true :=
  ⟨by decide, (mark_complete_success_spec okParent).1.mpr (by decide),
   (mark_complete_success_spec okParent).2 (by decide)⟩

/-- C7: every invocation of `create_task` that actually runs (positive
recursion fuel) appends the newly constructed Todo to the caller's list
before branching, with everything later in the result coming from the
recursive suggested attempts — the prior list is a prefix of the result —
and `add_todo` is a pure append. -/
theorem create_task_append_only (dg qg : String → Int) (sg : String → String)
    (rb pb : Box) (r : Nat → Nat) (boxFuel depth : Nat) (todos : List Todo)
    (description : String) (importance : Int) (i : Nat) :
    (∃ rest,
      (create_task dg qg sg rb pb r boxFuel (depth + 1) todos description importance i).1
        = todos
          ++ Todo.init description importance none none none (some qg) (some dg) none :: rest) ∧
    ∀ ts t, add_todo ts t = ts ++ [t] := by
  refine ⟨?_, fun ts t => rfl⟩
  by_cases hm : 0 < (Todo.init description importance none none none
      (some qg) (some dg) none).quality * (11 - importance)
  · refine ⟨[], ?_⟩
    simp only [create_task]
    rw [if_pos hm, reward_attempt_fst]
    simp [add_todo]
  · by_cases hr : randint 1 10 (r i) ≥ importance
    · refine ⟨[], ?_⟩
      simp only [create_task]
      rw [if_neg hm, if_pos hr, punishment_attempt_fst]
      simp [add_todo]
    · obtain ⟨ext, hext⟩ := create_task_extends dg qg sg rb pb r boxFuel depth
        (add_todo todos (Todo.init description importance none none none (some qg) (some dg) none))
        (sg description) importance (i + 1)
      refine ⟨ext, ?_⟩
      simp only [create_task]
      rw [if_neg hm, if_neg hr, hext]
      simp [add_todo]

/-- C5: when the computed modifier `quality * (11 - importance)` is strictly
positive, any reward returned by `create_task` is a member of the reward
box's own pool (independently of the punishment box), and when the reward
draw comes back empty the call terminates immediately with "no reward"
(`none`), the todo list having grown by exactly the one new Todo — no retry
or recursion. -/
theorem create_task_reward_from_pool (dg qg : String → Int) (sg : String → String)
    (rb pb : Box) (rrs : List Reward) (r : Nat → Nat) (boxFuel depth : Nat)
    (todos : List Todo) (description : String) (importance : Int) (i : Nat)
    (hpool : rb.pool = .randomPool rrs) (hps : 0 ≤ rb.pool_size)
    (hmod : 0 < qg description * (11 - importance)) :
    (∀ rew i'',
      (create_task dg qg sg rb pb r boxFuel (depth + 1) todos description importance i).2
        = .ok (some rew, i'') → rew ∈ rrs) ∧
    (∀ i',
      rb.get_reward_pool (qg description * (11 - importance)) r i boxFuel = .ok ([], i') →
      create_task dg qg sg rb pb r boxFuel (depth + 1) todos description importance i
        = (todos ++ [Todo.init description importance none none none (some qg) (some dg) none],
           .ok (none, i'))) := by
  have hm : 0 < (Todo.init description importance none none none
      (some qg) (some dg) none).quality * (11 - importance) := by
    rw [todo_init_quality]
    exact hmod
  constructor
  · intro rew i'' hok
    simp only [create_task] at hok
    rw [if_pos hm] at hok
    unfold reward_attempt at hok
    cases hbox : rb.get_reward_pool ((Todo.init description importance none none none
        (some qg) (some dg) none).quality * (11 - importance)) r i boxFuel with
    | crash e => rw [hbox] at hok; simp at hok
    | fuelOut => rw [hbox] at hok; simp at hok
    | ok a =>
      obtain ⟨rewards, i'⟩ := a
      rw [hbox] at hok
      by_cases hemp : rewards.isEmpty
      · simp [hemp] at hok
      · simp only [hemp, Bool.false_eq_true, if_false] at hok
        have hrs : rewards ≠ [] := by
          intro hnil
          rw [hnil] at hemp
          simp at hemp
        rw [select_reward_ne_nil rewards hrs] at hok
        simp only [Except.ok.injEq, Prod.mk.injEq, Option.some.injEq,
          RunResult.ok.injEq] at hok
        unfold Box.get_reward_pool at hbox
        obtain ⟨-, hmem⟩ := get_reward_pool_aux_ok rb _ r rrs hpool boxFuel i [] rewards i'
          (by simpa using hps) (by simp) hbox
        rw [← hok.1]
        exact (hmem _ (List.get_mem _ _ _)).1
  · intro i' hbox
    simp only [create_task]
    rw [if_pos hm]
    unfold reward_attempt
    have hbox' : rb.get_reward_pool ((Todo.init description importance none none none
        (some qg) (some dg) none).quality * (11 - importance)) r i boxFuel = .ok ([], i') := by
      rw [todo_init_quality]
      exact hbox
    rw [hbox']
    simp [add_todo]

theorem create_task_reward_from_pool_witness :
    (rewBox.pool = PoolObj.randomPool [⟨100, "Reward Key 1"⟩] ∧
     (0 : Int) ≤ rewBox.pool_size ∧ 0 < qgT "Main task" * (11 - 5) ∧
     (create_task dgT qgT sgU rewBox stuckBox r0 1 1 [] "Main task" 5 0).2
        = .ok (some ⟨100, "Reward Key 1"⟩, 3)) ∧
    (⟨100, "Reward Key 1"⟩ : Reward) ∈ [(⟨100, "Reward Key 1"⟩ : Reward)] :=
  ⟨⟨rfl, by decide, by decide, by decide⟩,
   (create_task_reward_from_pool dgT qgT sgU rewBox stuckBox [⟨100, "Reward Key 1"⟩] r0 1 0
     [] "Main task" 5 0 rfl (by decide) (by decide)).1 ⟨100, "Reward Key 1"⟩ 3 (by decide)⟩

/-- C6: when the computed modifier `quality * (11 - importance)` is not
positive, a fresh `randint(1, 10)` roll is drawn; a roll `>= importance`
attempts the punishment box with that same (non-positive) modifier, while a
roll `< importance` recurses with `suggestion_generator.make_suggestion(description)`
as the new description and unchanged importance and generators.  In
particular, with importance 11, quality 0 and a constant roll of 10, the
suggestion branch is taken and a second Todo with the description extended by
" (updated)" is appended to the list. -/
theorem create_task_punish_or_suggest (dg qg : String → Int) (sg : String → String)
    (rb pb : Box) (r : Nat → Nat) (boxFuel depth : Nat) (todos : List Todo)
    (description : String) (importance : Int) (i : Nat)
    (hmod : qg description * (11 - importance) ≤ 0) :
    (randint 1 10 (r i) ≥ importance →
      create_task dg qg sg rb pb r boxFuel (depth + 1) todos description importance i
        = punishment_attempt pb (qg description * (11 - importance)) r boxFuel
            (todos ++ [Todo.init description importance none none none (some qg) (some dg) none])
            (i + 1)) ∧
    (randint 1 10 (r i) < importance →
      create_task dg qg sg rb pb r boxFuel (depth + 1) todos description importance i
        = create_task dg qg sg rb pb r boxFuel depth
            (todos ++ [Todo.init description importance none none none (some qg) (some dg) none])
            (sg description) importance (i + 1)) ∧
    (create_task dgT qg0 sgU rewBox stuckBox r9 1 2 [] "Main task" 11 0).1.map Todo.description
        = ["Main task", "Main task (updated)"] := by
  have hm : ¬ 0 < (Todo.init description importance none none none
      (some qg) (some dg) none).quality * (11 - importance) := by
    rw [todo_init_quality]
    omega
  refine ⟨?_, ?_, by decide⟩
  · intro hroll
    simp only [create_task]
    rw [if_neg hm, if_pos hroll]
    rfl
  · intro hroll
    simp only [create_task]
    rw [if_neg hm, if_neg (not_le.mpr hroll)]
    rfl

theorem create_task_punish_or_suggest_witness :
    (qg0 "Main task" * (11 - 11) ≤ 0 ∧ qg0 "chore" * (11 - 1) ≤ 0 ∧
     randint 1 10 (r9 0) < 11 ∧ randint 1 10 (r9 0) ≥ 1) ∧
    (create_task dgT qg0 sgU rewBox stuckBox r9 1 1 [] "Main task" 11 0
      = create_task dgT qg0 sgU rewBox stuckBox r9 1 0
          ([] ++ [Todo.init "Main task" 11 none none none (some qg0) (some dgT) none])
          (sgU "Main task") 11 1) ∧
    (create_task dgT qg0 sgU rewBox stuckBox r9 1 1 [] "chore" 1 0
      = punishment_attempt stuckBox (qg0 "chore" * (11 - 1)) r9 1
          ([] ++ [Todo.init "chore" 1 none none none (some qg0) (some dgT) none]) 1) :=
  ⟨⟨by decide, by decide, by decide, by decide⟩,
   (create_task_punish_or_suggest dgT qg0 sgU rewBox stuckBox r9 1 0 [] "Main task" 11 0
     (by decide)).2.1 (by decide),
   (create_task_punish_or_suggest dgT qg0 sgU rewBox stuckBox r9 1 0 [] "chore" 1 0
     (by decide)).1 (by decide)⟩

end TodoLoot
